import Mathlib

/-!
Verification of the backend abstraction, normalization and resilience layer of
the Sherlog Prometheus agent (a shallow embedding of `app/core/backends/*.py`,
`app/core/retry.py`, `app/core/tools/observability.py` and
`app/core/exceptions.py` in Lean 4).

Conventions of the embedding:
* Python values handled by the adapters (parsed JSON payloads) are modelled by
  the inductive type `PyVal`; Python dicts are association lists in insertion
  order, as produced by `json` parsing.
* Raised Python exceptions are modelled by `PyExc`; fallible code returns
  `Except PyExc _`.
* The network call inside an adapter method is modelled by passing the HTTP
  response (`HttpResponse`) the `aiohttp` session would produce; everything
  after the `session.get` line is translated faithfully.
* `float`/machine reals are modelled as `ℚ`; the adapters only construct
  floats via `float(...)` from integers and short decimal strings, where the
  rational semantics agrees with IEEE semantics on every value appearing in a
  theorem below.
-/

/-- A Python value as handled by the adapter parse steps (the image of parsed
JSON plus `None`). Dicts are association lists in insertion order. -/
inductive PyVal where
  | none
  | bool (b : Bool)
  | int (n : ℤ)
  | float (q : ℚ)
  | str (s : String)
  | list (xs : List PyVal)
  | dict (fields : List (String × PyVal))

/-- Python `v == s` for a string literal `s` (string equality on strings,
`False` against any other type, as in Python). -/
def pyEqStr (v : PyVal) (s : String) : Bool :=
  match v with
  | .str s' => s' = s
  | _ => false

/-- Python `v is None`. -/
def pyIsNone : PyVal → Bool
  | .none => true
  | _ => false

/-- A raised Python exception, as the code under verification can raise them:
the adapters' bare `Exception(...)`, builtins (`ValueError`, `TypeError`,
`IndexError`, `AttributeError`, `RuntimeError`), and the typed hierarchy of
`app/core/exceptions.py` that is relevant to the claims. -/
inductive PyExc where
  | bareException (msg : String)
  | valueError (msg : String)
  | typeError (msg : String)
  | indexError (msg : String)
  | attributeError (msg : String)
  | runtimeError (msg : String)
  | configurationError (msg : String)
  | prometheusConnectionError (msg : String)
  | prometheusQueryError (msg : String) (query : String)
  | retryError (msg : String) (operation : String) (attempts : ℤ) (lastError : String)
  deriving DecidableEq, Repr

/-- Python `str(e)` for the exceptions above: every class passes its message to
`Exception.__init__` (see `SherlogError.__init__`), so `str(e)` is the message. -/
def PyExc.toMessage : PyExc → String
  | .bareException m => m
  | .valueError m => m
  | .typeError m => m
  | .indexError m => m
  | .attributeError m => m
  | .runtimeError m => m
  | .configurationError m => m
  | .prometheusConnectionError m => m
  | .prometheusQueryError m _ => m
  | .retryError m _ _ _ => m

/-- Association-list lookup used for dict access (first binding wins, as in a
Python dict where keys are unique). -/
def pyLookup (fields : List (String × PyVal)) (k : String) : Option PyVal :=
  match fields with
  | [] => Option.none
  | (k', v) :: rest => if k' = k then some v else pyLookup rest k

/-- Python `v.get(k, d)`: defined on dicts; on any other value Python raises
`AttributeError` (no `get` attribute). -/
def pyGet (v : PyVal) (k : String) (d : PyVal) : Except PyExc PyVal :=
  match v with
  | .dict fields =>
    match pyLookup fields k with
    | some x => .ok x
    | Option.none => .ok d
  | _ => .error (.attributeError "object has no attribute get")

/-- Python `v[i]` for a non-negative index: defined on lists; out of range
raises `IndexError`; the adapters never index any other value shape that
matters to a claim, so other values raise `TypeError` here. -/
def pySubscript (v : PyVal) (i : ℕ) : Except PyExc PyVal :=
  match v with
  | .list xs =>
    match xs.get? i with
    | some x => .ok x
    | Option.none => .error (.indexError "list index out of range")
  | _ => .error (.typeError "object is not subscriptable")

/-- Python `for x in v`: defined on lists (the only iterables the adapters
loop over); other values raise `TypeError`. -/
def pyIter (v : PyVal) : Except PyExc (List PyVal) :=
  match v with
  | .list xs => .ok xs
  | _ => .error (.typeError "object is not iterable")

/-- Decimal digit value of a character, `Option.none` for non-digits. -/
def digitVal (c : Char) : Option ℕ :=
  if c.isDigit then some (c.toNat - 48) else Option.none

/-- Parse a nonempty run of decimal digits into a natural number. -/
def parseNatDigits : List Char → Option ℕ
  | [] => Option.none
  | [c] => digitVal c
  | c :: rest =>
    match digitVal c, parseNatDigits rest with
    | some d, some n => some (d * 10 ^ rest.length + n)
    | _, _ => Option.none

/-- Parse an unsigned decimal literal (`"12"`, `"12.5"`) into a rational. -/
def parseUnsignedDecimal (cs : List Char) : Option ℚ :=
  match cs.splitOn '.' with
  | [intPart] => (parseNatDigits intPart).map (fun n => (n : ℚ))
  | [intPart, fracPart] =>
    match parseNatDigits intPart, parseNatDigits fracPart with
    | some n, some f => some ((n : ℚ) + (f : ℚ) / (10 : ℚ) ^ fracPart.length)
    | _, _ => Option.none
  | _ => Option.none

/-- Parse the decimal string forms of Python `float(s)` that the backends emit
(optionally signed decimal literals); exponent forms are not needed by any
claim and are rejected, which only makes `float(s)` fail in the model where it
would succeed in Python — no theorem below touches such a string. -/
def parseFloatString (s : String) : Option ℚ :=
  match s.data with
  | '-' :: rest => (parseUnsignedDecimal rest).map (fun q => -q)
  | '+' :: rest => parseUnsignedDecimal rest
  | cs => parseUnsignedDecimal cs

/-- Python `float(v)` as used by the adapters (`float(value[1])`). -/
def pyFloat (v : PyVal) : Except PyExc ℚ :=
  match v with
  | .int n => .ok (n : ℚ)
  | .float q => .ok q
  | .bool b => .ok (if b then 1 else 0)
  | .str s =>
    match parseFloatString s with
    | some q => .ok q
    | Option.none => .error (.valueError ("could not convert string to float: " ++ s))
  | .none => .error (.typeError "float() argument must be a string or a real number, not NoneType")
  | _ => .error (.typeError "float() argument must be a string or a real number")

/-- Python `str(v)` as interpolated in the adapters' f-strings. The only values
interpolated by a code path a theorem exercises are strings and `None`; the
numeric and container renderings are best-effort and never reached below. -/
def pyStrOf : PyVal → String
  | .str s => s
  | .none => "None"
  | .bool b => if b then "True" else "False"
  | .int n => toString n
  | .float q => toString q
  | .list _ => "[...]"
  | .dict _ => "\x7b...\x7d"

/-- An HTTP response as observed by the adapter after `session.get(...)`:
status code, body text, and the parsed JSON body. This models the network
boundary; the adapter code after the request is embedded faithfully. -/
structure HttpResponse where
  status : ℕ
  text : String
  json : PyVal

/-- Python truthiness of an optional string (`None` and `""` are falsy). -/
def pyTruthyOptStr : Option String → Bool
  | Option.none => false
  | some s => s ≠ ""

/-- Python `a or b` on optional strings: the first operand when truthy,
otherwise the second. -/
def pyOrOptStr (a b : Option String) : Option String :=
  if pyTruthyOptStr a then a else b

/-- The state of a constructed `PrometheusBackend` (its only field). -/
structure PrometheusBackend.State where
  base_url : String

/-- Embedding of `PrometheusBackend.__init__` (src/app/core/backends/prometheus.py,
lines 12-15): `self.base_url = base_url or settings.PROMETHEUS_URL`, then
`ValueError` when the result is falsy. The settings attribute is passed in
explicitly. -/
def PrometheusBackend.init (base_url settingsPrometheusUrl : Option String) :
    Except PyExc PrometheusBackend.State :=
  let url := pyOrOptStr base_url settingsPrometheusUrl
  if pyTruthyOptStr url then .ok ⟨url.getD ""⟩
  else .error (.valueError "Prometheus URL is required")

/-- Embedding of `PrometheusBackend.query` (lines 17-25): the `aiohttp` GET
against `{base_url}/api/v1/query` is modelled by the `HttpResponse` it yields;
on a non-200 status the method raises a bare `Exception` built from the body
text, otherwise it returns the parsed JSON body. -/
def PrometheusBackend.query (resp : HttpResponse) : Except PyExc PyVal :=
  if resp.status ≠ 200 then
    .error (.bareException ("Prometheus query failed: " ++ resp.text))
  else
    .ok resp.json

/-- Embedding of `PrometheusBackend.query_range` (lines 27-44): same shape as
`query` against `/api/v1/query_range`, with a different bare `Exception`
message on non-200. -/
def PrometheusBackend.query_range (resp : HttpResponse) : Except PyExc PyVal :=
  if resp.status ≠ 200 then
    .error (.bareException ("Prometheus range query failed: " ++ resp.text))
  else
    .ok resp.json

/-- One iteration of the loop in `PrometheusBackend._format_vector_result`
(lines 64-71): `metric = result.get("metric", {})`,
`value = result.get("value", [None, None])`, then the formatted dict with
`float(value[1]) if value[1] is not None else None`. -/
def PrometheusBackend.formatVectorEntry (result : PyVal) : Except PyExc PyVal :=
  match pyGet result "metric" (.dict []) with
  | .error e => .error e
  | .ok metric =>
    match pyGet result "value" (.list [.none, .none]) with
    | .error e => .error e
    | .ok value =>
      match pySubscript value 0 with
      | .error e => .error e
      | .ok ts =>
        match pySubscript value 1 with
        | .error e => .error e
        | .ok v1 =>
          if pyIsNone v1 then
            .ok (.dict [("metric", metric), ("timestamp", ts), ("value", .none)])
          else
            match pyFloat v1 with
            | .error e => .error e
            | .ok q =>
              .ok (.dict [("metric", metric), ("timestamp", ts), ("value", .float q)])

/-- The accumulation loop of `_format_vector_result`: formatted entries are
appended in order; an exception in any iteration propagates. -/
def PrometheusBackend.formatVectorList : List PyVal → Except PyExc (List PyVal)
  | [] => .ok []
  | r :: rest =>
    match PrometheusBackend.formatVectorEntry r with
    | .error e => .error e
    | .ok fr =>
      match PrometheusBackend.formatVectorList rest with
      | .error e => .error e
      | .ok frs => .ok (fr :: frs)

/-- Embedding of `PrometheusBackend._format_vector_result` (lines 61-72):
iterates over the backend series and wraps them as
`{"type": "vector", "results": [...]}`. -/
def PrometheusBackend.format_vector_result (results : PyVal) : Except PyExc PyVal :=
  match pyIter results with
  | .error e => .error e
  | .ok rs =>
    match PrometheusBackend.formatVectorList rs with
    | .error e => .error e
    | .ok frs => .ok (.dict [("type", .str "vector"), ("results", .list frs)])

/-- One element of the list comprehension in `_format_matrix_result` (lines
80-83): `{"timestamp": value[0], "value": float(value[1])}`. A `None` value
here reaches `float(None)` and raises `TypeError`. -/
def PrometheusBackend.formatMatrixValue (value : PyVal) : Except PyExc PyVal :=
  match pySubscript value 0 with
  | .error e => .error e
  | .ok ts =>
    match pySubscript value 1 with
    | .error e => .error e
    | .ok v1 =>
      match pyFloat v1 with
      | .error e => .error e
      | .ok q => .ok (.dict [("timestamp", ts), ("value", .float q)])

/-- The list comprehension over `values` in `_format_matrix_result`. -/
def PrometheusBackend.formatMatrixValues : List PyVal → Except PyExc (List PyVal)
  | [] => .ok []
  | v :: rest =>
    match PrometheusBackend.formatMatrixValue v with
    | .error e => .error e
    | .ok fv =>
      match PrometheusBackend.formatMatrixValues rest with
      | .error e => .error e
      | .ok fvs => .ok (fv :: fvs)

/-- One iteration of the outer loop in `_format_matrix_result` (lines 77-87). -/
def PrometheusBackend.formatMatrixEntry (result : PyVal) : Except PyExc PyVal :=
  match pyGet result "metric" (.dict []) with
  | .error e => .error e
  | .ok metric =>
    match pyGet result "values" (.list []) with
    | .error e => .error e
    | .ok values =>
      match pyIter values with
      | .error e => .error e
      | .ok vs =>
        match PrometheusBackend.formatMatrixValues vs with
        | .error e => .error e
        | .ok fvs => .ok (.dict [("metric", metric), ("values", .list fvs)])

/-- The accumulation loop of `_format_matrix_result`. -/
def PrometheusBackend.formatMatrixList : List PyVal → Except PyExc (List PyVal)
  | [] => .ok []
  | r :: rest =>
    match PrometheusBackend.formatMatrixEntry r with
    | .error e => .error e
    | .ok fr =>
      match PrometheusBackend.formatMatrixList rest with
      | .error e => .error e
      | .ok frs => .ok (fr :: frs)

/-- Embedding of `PrometheusBackend._format_matrix_result` (lines 74-88). -/
def PrometheusBackend.format_matrix_result (results : PyVal) : Except PyExc PyVal :=
  match pyIter results with
  | .error e => .error e
  | .ok rs =>
    match PrometheusBackend.formatMatrixList rs with
    | .error e => .error e
    | .ok frs => .ok (.dict [("type", .str "matrix"), ("results", .list frs)])

/-- Embedding of `PrometheusBackend.format_result` (lines 46-59): raises a bare
`Exception` when `result.get("status") != "success"`; dispatches on
`data.get("resultType")`; on any other result type RETURNS the value
`{"error": f"Unsupported result type: {result_type}"}` (no exception). -/
def PrometheusBackend.format_result (result : PyVal) : Except PyExc PyVal :=
  match pyGet result "status" .none with
  | .error e => .error e
  | .ok status =>
    if ¬ pyEqStr status "success" then
      match pyGet result "error" (.str "Unknown error") with
      | .error e => .error e
      | .ok err => .error (.bareException ("Query failed: " ++ pyStrOf err))
    else
      match pyGet result "data" (.dict []) with
      | .error e => .error e
      | .ok data =>
        match pyGet data "resultType" .none with
        | .error e => .error e
        | .ok result_type =>
          if pyEqStr result_type "vector" then
            match pyGet data "result" (.list []) with
            | .error e => .error e
            | .ok rs => PrometheusBackend.format_vector_result rs
          else if pyEqStr result_type "matrix" then
            match pyGet data "result" (.list []) with
            | .error e => .error e
            | .ok rs => PrometheusBackend.format_matrix_result rs
          else
            .ok (.dict [("error", .str ("Unsupported result type: " ++ pyStrOf result_type))])

/-- The state of a constructed `LokiBackend` (its only field). -/
structure LokiBackend.State where
  base_url : String

/-- Embedding of `LokiBackend.__init__` (src/app/core/backends/loki.py, lines
10-13), analogous to `PrometheusBackend.init`. -/
def LokiBackend.init (base_url settingsLokiUrl : Option String) :
    Except PyExc LokiBackend.State :=
  let url := pyOrOptStr base_url settingsLokiUrl
  if pyTruthyOptStr url then .ok ⟨url.getD ""⟩
  else .error (.valueError "Loki URL is required")

/-- Embedding of `LokiBackend.query` (lines 15-23): bare `Exception` on a
non-200 status, parsed JSON body otherwise. -/
def LokiBackend.query (resp : HttpResponse) : Except PyExc PyVal :=
  if resp.status ≠ 200 then
    .error (.bareException ("Loki query failed: " ++ resp.text))
  else
    .ok resp.json

/-- Embedding of `LokiBackend.query_range` (lines 25-40); the
nanosecond-timestamp request parameters do not affect the response handling
modelled here. -/
def LokiBackend.query_range (resp : HttpResponse) : Except PyExc PyVal :=
  if resp.status ≠ 200 then
    .error (.bareException ("Loki range query failed: " ++ resp.text))
  else
    .ok resp.json

/-- The state of a constructed `PrometheusLokiBackend`
(src/app/core/backends/combined.py): a Prometheus metrics backend plus an
optional Loki logs backend. The query-engine fields only wrap the external
`llm_manager` collaborator and carry no behaviour of this layer; the
`logs_query_engine` field is `Option.none` exactly when `logs_backend` is. -/
structure PrometheusLokiBackend.State where
  metrics_backend : PrometheusBackend.State
  logs_backend : Option LokiBackend.State

/-- Embedding of `PrometheusLokiBackend.__init__` (combined.py, lines 9-22):
always constructs the Prometheus backend; constructs the Loki backend only when
`loki_url` is truthy, otherwise stores `None`. -/
def PrometheusLokiBackend.init
    (prometheus_url loki_url settingsPrometheusUrl settingsLokiUrl : Option String) :
    Except PyExc PrometheusLokiBackend.State :=
  match PrometheusBackend.init prometheus_url settingsPrometheusUrl with
  | .error e => .error e
  | .ok mb =>
    if pyTruthyOptStr loki_url then
      match LokiBackend.init loki_url settingsLokiUrl with
      | .error e => .error e
      | .ok lb => .ok ⟨mb, some lb⟩
    else
      .ok ⟨mb, Option.none⟩

/-- Embedding of `PrometheusLokiBackend.get_logs_backend` (combined.py, lines
28-30). -/
def PrometheusLokiBackend.get_logs_backend (b : PrometheusLokiBackend.State) :
    Option LokiBackend.State :=
  b.logs_backend

/-- The state of a constructed `PrometheusObservabilityBackend`
(src/app/core/backends/prometheus.py, lines 133-150): only a metrics backend;
it has no logs field at all. -/
structure PrometheusObservabilityBackend.State where
  metrics_backend : PrometheusBackend.State

/-- Embedding of `PrometheusObservabilityBackend.__init__` (lines 136-138). -/
def PrometheusObservabilityBackend.init (base_url settingsPrometheusUrl : Option String) :
    Except PyExc PrometheusObservabilityBackend.State :=
  match PrometheusBackend.init base_url settingsPrometheusUrl with
  | .error e => .error e
  | .ok mb => .ok ⟨mb⟩

/-- Embedding of `PrometheusObservabilityBackend.get_logs_backend` (lines
143-144): `return None  # Prometheus doesn't handle logs`. -/
def PrometheusObservabilityBackend.get_logs_backend
    (_ : PrometheusObservabilityBackend.State) : Option LokiBackend.State :=
  Option.none

/-- A constructed `ObservabilityBackend`: one of the two concrete variants the
repository defines (demo backends aside). -/
inductive ObservabilityBackend.State where
  | prometheus (b : PrometheusObservabilityBackend.State)
  | prometheusLoki (b : PrometheusLokiBackend.State)

/-- Dynamic dispatch of `get_logs_backend` over the two variants. -/
def ObservabilityBackend.get_logs_backend : ObservabilityBackend.State → Option LokiBackend.State
  | .prometheus b => PrometheusObservabilityBackend.get_logs_backend b
  | .prometheusLoki b => PrometheusLokiBackend.get_logs_backend b

/-- Embedding of the `query_logs` agent tool
(src/app/core/tools/observability.py, lines 47-60):
`logs_backend = ctx.deps.backend.get_logs_backend()`; when that is falsy
(`None`) it raises `ValueError("Logs backend not available")`; otherwise it
performs the Loki range or instant query. The wall-clock start/end computation
only builds request parameters and is absorbed into the modelled response. -/
def query_logs (backend : ObservabilityBackend.State) (time_range : Option String)
    (resp : HttpResponse) : Except PyExc PyVal :=
  match ObservabilityBackend.get_logs_backend backend with
  | Option.none => .error (.valueError "Logs backend not available")
  | some _ =>
    if pyTruthyOptStr time_range then
      LokiBackend.query_range resp
    else
      LokiBackend.query resp

/-- Embedding of `ObservabilityBackendFactory.create_backend`
(src/app/core/backends/factory.py, lines 10-43). `config` is the optional
override dict restricted to the two keys the code reads: an outer `Option.none`
models an absent key, making `config.get(key, settings.X)` fall back to the
settings attribute. Unknown backend types raise
`ValueError(f"Unsupported backend type: {backend_type}")`. Construction
performs no network interaction: the result is a pure function of the
configuration. -/
def ObservabilityBackendFactory.create_backend (backend_type : String)
    (config_prometheus_url config_loki_url : Option (Option String))
    (settingsPrometheusUrl settingsLokiUrl : Option String) :
    Except PyExc ObservabilityBackend.State :=
  if backend_type = "prometheus" then
    match PrometheusObservabilityBackend.init
        (config_prometheus_url.getD settingsPrometheusUrl) settingsPrometheusUrl with
    | .error e => .error e
    | .ok b => .ok (.prometheus b)
  else if backend_type = "prometheus-loki" then
    match PrometheusLokiBackend.init
        (config_prometheus_url.getD settingsPrometheusUrl)
        (config_loki_url.getD settingsLokiUrl)
        settingsPrometheusUrl settingsLokiUrl with
    | .error e => .error e
    | .ok b => .ok (.prometheusLoki b)
  else
    .error (.valueError ("Unsupported backend type: " ++ backend_type))

/-- Embedding of `ObservabilityBackendFactory.get_available_backends`
(factory.py, lines 45-51). -/
def ObservabilityBackendFactory.get_available_backends : List (String × String) :=
  [("prometheus", "Prometheus metrics only"),
   ("prometheus-loki", "Combined Prometheus metrics and Loki logs")]

/-- Python `range(n)` for an integer argument `n`: `[0, 1, ..., n - 1]`, empty
when `n ≤ 0`. -/
def pyRange (n : ℤ) : List ℤ :=
  (List.range n.toNat).map Int.ofNat

/-- How one run of the coroutine wrapped by `retry_with_backoff` ends: the
decorated `wrapper` either returns a value or raises an exception. -/
inductive RetryOutcome (α : Type) where
  | value (v : α)
  | raised (e : PyExc)
  deriving DecidableEq

/-- Observable result of running the retry loop of `retry_with_backoff.wrapper`
(src/app/core/retry.py, lines 51-99): how the `for` loop exited (`Option.none`
when it fell through without returning or raising), the successive arguments
passed to `asyncio.sleep`, and how many times `func` was invoked. -/
structure RetryLoopRun (α : Type) where
  outcome : Option (RetryOutcome α)
  sleeps : List ℚ
  calls : ℕ
  deriving DecidableEq

/-- Embedding of the `for attempt in range(max_retries + 1)` loop of
`retry_with_backoff.wrapper` (retry.py, lines 55-96).

The wrapped coroutine is modelled by `func`, mapping the zero-based invocation
number to the call's outcome; `retryable e` models the match of the
`except exceptions as e` clause (an exception that does not match propagates
uncaught); `jitter k` models the value `random.uniform(0.8, 1.2)` drawn before
the `k`-th sleep (the `k`-th retry). Logging and the `on_retry` callback are
side-effect-only and have no observable trace here. The remaining arguments of
the loop body are the decorator parameters, the list of attempt numbers still
to run, the current `delay` variable, and the running invocation count. -/
def retryLoop {α : Type} (func : ℕ → Except PyExc α) (retryable : PyExc → Bool)
    (jitter : ℕ → ℚ) (max_retries : ℤ) (max_delay backoff_factor : ℚ)
    (funcName : String) :
    List ℤ → ℚ → ℕ → RetryLoopRun α
  | [], _, calls => ⟨Option.none, [], calls⟩
  | attempt :: rest, delay, calls =>
    match func calls with
    | .ok v => ⟨some (.value v), [], calls + 1⟩
    | .error e =>
      if retryable e then
        if attempt = max_retries then
          ⟨some (.raised (.retryError
              ("Operation failed after " ++ toString max_retries ++ " retries")
              funcName (max_retries + 1) (PyExc.toMessage e))),
           [], calls + 1⟩
        else
          let next_delay := min (delay * backoff_factor * jitter calls) max_delay
          let r := retryLoop func retryable jitter max_retries max_delay backoff_factor
              funcName rest next_delay (calls + 1)
          ⟨r.outcome, next_delay :: r.sleeps, r.calls⟩
      else
        ⟨some (.raised e), [], calls + 1⟩

/-- Observable result of one run of the decorated `wrapper`: the outcome plus
the sleeps performed and the number of invocations of `func`. -/
structure WrapperRun (α : Type) where
  outcome : RetryOutcome α
  sleeps : List ℚ
  calls : ℕ
  deriving DecidableEq

/-- Embedding of `retry_with_backoff.wrapper` (retry.py, lines 51-99): runs the
loop with `delay = initial_delay` over `range(max_retries + 1)`; if the loop
falls through, the trailing
`raise RuntimeError("Unexpected end of retry loop")` fires. -/
def retryWrapper {α : Type} (func : ℕ → Except PyExc α) (retryable : PyExc → Bool)
    (jitter : ℕ → ℚ) (max_retries : ℤ)
    (initial_delay max_delay backoff_factor : ℚ) (funcName : String) :
    WrapperRun α :=
  let r := retryLoop func retryable jitter max_retries max_delay backoff_factor funcName
      (pyRange (max_retries + 1)) initial_delay 0
  ⟨match r.outcome with
    | some o => o
    | Option.none => .raised (.runtimeError "Unexpected end of retry loop"),
   r.sleeps, r.calls⟩

/-- Recognizer for the typed `PrometheusConnectionError` kind. -/
def isPrometheusConnectionError : PyExc → Bool
  | .prometheusConnectionError _ => true
  | _ => false

/-- Recognizer for the typed `PrometheusQueryError` kind. -/
def isPrometheusQueryError : PyExc → Bool
  | .prometheusQueryError _ _ => true
  | _ => false

/-- Recognizer for the typed `ConfigurationError` kind. -/
def isConfigurationError : PyExc → Bool
  | .configurationError _ => true
  | _ => false

/-- The spec's example scenario payload (§8): a successful instant vector
response with one series. -/
def examplePayload : PyVal :=
  .dict [("status", .str "success"),
         ("data", .dict
           [("resultType", .str "vector"),
            ("result", .list
              [.dict [("metric", .dict [("__name__", .str "up"), ("job", .str "api")]),
                      ("value", .list [.int 1700000000, .str "1"])]])])]

/-- C1 (code bug evidence): on a non-success HTTP status the adapter raises a
bare `Exception`, not a typed `PrometheusConnectionError`/`PrometheusQueryError`
— here evaluated at an HTTP 500 with body `"server error"`, and at a
success-shaped body whose `status` field is `"error"`. This contradicts the
error taxonomy of `app/core/exceptions.py` and the expectations of
`tests/test_prometheus.py::test_error_handling`. -/
theorem prometheus_query_raises_bare_exception :
    PrometheusBackend.query ⟨500, "server error", .none⟩
      = .error (.bareException "Prometheus query failed: server error") ∧
    PrometheusBackend.query_range ⟨502, "bad gateway", .none⟩
      = .error (.bareException "Prometheus range query failed: bad gateway") ∧
    PrometheusBackend.format_result
        (.dict [("status", .str "error"), ("error", .str "parse error")])
      = .error (.bareException "Query failed: parse error") ∧
    isPrometheusConnectionError (.bareException "Prometheus query failed: server error") = false ∧
    isPrometheusQueryError (.bareException "Prometheus query failed: server error") = false :=
  ⟨rfl, rfl, rfl, rfl, rfl⟩

/-- C9 (counterexample): on the spec's example payload the parse step does NOT
separate the series name from the labels: the single formatted result carries
the full metric mapping `{"__name__": "up", "job": "api"}` (which is not the
claimed label set `{"job": "api"}`) and has no separate name field. -/
theorem example_scenario_name_not_separated :
    PrometheusBackend.format_result examplePayload
      = .ok (.dict [("type", .str "vector"),
                    ("results", .list
                      [.dict [("metric", .dict [("__name__", .str "up"), ("job", .str "api")]),
                              ("timestamp", .int 1700000000),
                              ("value", .float 1)]])]) ∧
    (PyVal.dict [("__name__", .str "up"), ("job", .str "api")]
      ≠ PyVal.dict [("job", .str "api")]) := by
  refine ⟨rfl, ?_⟩
  intro h
  injection h with h1
  injection h1 with h2 _
  injection h2 with h3 _
  exact absurd h3 (by decide)

/-- C9 (amended): the adapter applied to the spec's example payload produces
exactly one formatted result, whose metric mapping is the unseparated label map
`{"__name__": "up", "job": "api"}` (the series name stays under the `__name__`
key), with the single sample timestamp `1700000000` and value `1.0`. -/
theorem example_scenario_formatted :
    PrometheusBackend.format_result examplePayload
      = .ok (.dict [("type", .str "vector"),
                    ("results", .list
                      [.dict [("metric", .dict [("__name__", .str "up"), ("job", .str "api")]),
                              ("timestamp", .int 1700000000),
                              ("value", .float 1)]])]) := rfl

/-- A success payload whose `resultType` is `"scalar"`, which neither branch of
`format_result` supports. -/
def unsupportedTypePayload : PyVal :=
  .dict [("status", .str "success"),
         ("data", .dict [("resultType", .str "scalar"), ("result", .list [])])]

/-- C4 (counterexample): on a success payload with an unsupported result type
the parse step returns normally (an `"error"`-keyed dict), it does not raise a
`QueryError` — the result is `Except.ok`, not `Except.error`. -/
theorem unsupported_result_type_returns_normally :
    PrometheusBackend.format_result unsupportedTypePayload
      = .ok (.dict [("error", .str "Unsupported result type: scalar")]) := rfl

/-- C4 (amended): for every success-status payload whose `data.resultType` is a
string other than `"vector"` and `"matrix"`, the adapter's parse step returns
(not raises) the value `{"error": f"Unsupported result type: {result_type}"}`
citing the unsupported result-type string. -/
theorem unsupported_result_type_cited (result data status : PyVal) (t : String)
    (h1 : pyGet result "status" PyVal.none = .ok status)
    (hs : pyEqStr status "success" = true)
    (h2 : pyGet result "data" (.dict []) = .ok data)
    (h3 : pyGet data "resultType" PyVal.none = .ok (.str t))
    (h4 : t ≠ "vector") (h5 : t ≠ "matrix") :
    PrometheusBackend.format_result result
      = .ok (.dict [("error", .str ("Unsupported result type: " ++ t))]) := by
  unfold PrometheusBackend.format_result
  simp only [h1, hs, not_true_eq_false, if_false]
  simp only [h2, h3]
  simp [pyEqStr, h4, h5, pyStrOf]

/-- C4 (witness for the amended theorem). -/
theorem unsupported_result_type_cited_witness :
    PrometheusBackend.format_result unsupportedTypePayload
      = .ok (.dict [("error", .str ("Unsupported result type: " ++ "scalar"))]) :=
  unsupported_result_type_cited unsupportedTypePayload
    (.dict [("resultType", .str "scalar"), ("result", .list [])]) (.str "success") "scalar"
    rfl rfl rfl rfl (by decide) (by decide)

/-- A successful vector payload with exactly one series whose sample value is
`null`. -/
def nullValuePayload : PyVal :=
  .dict [("status", .str "success"),
         ("data", .dict
           [("resultType", .str "vector"),
            ("result", .list
              [.dict [("metric", .dict [("job", .str "api")]),
                      ("value", .list [.int 1700000000, .none])]])])]

/-- C5 (counterexample): a sample whose value is `null` is NOT dropped from the
output sequence — the adapter emits it as a null-valued sample
(`"value": None`), so the results list of the parse of `nullValuePayload` still
has one element. -/
theorem null_valued_sample_is_kept :
    PrometheusBackend.format_result nullValuePayload
      = .ok (.dict [("type", .str "vector"),
                    ("results", .list
                      [.dict [("metric", .dict [("job", .str "api")]),
                              ("timestamp", .int 1700000000),
                              ("value", .none)]])]) := rfl

/-- Formatting a list of vector entries preserves its length whenever it
succeeds: no entry is ever dropped. -/
theorem formatVectorList_length (rs : List PyVal) :
    ∀ frs, PrometheusBackend.formatVectorList rs = .ok frs → frs.length = rs.length := by
  induction rs with
  | nil =>
    intro frs h
    simp only [PrometheusBackend.formatVectorList] at h
    injection h with h'
    simp [← h']
  | cons r rest ih =>
    intro frs h
    simp only [PrometheusBackend.formatVectorList] at h
    cases he : PrometheusBackend.formatVectorEntry r with
    | error e => rw [he] at h; exact Except.noConfusion h
    | ok fr =>
      rw [he] at h
      cases hr : PrometheusBackend.formatVectorList rest with
      | error e => rw [hr] at h; exact Except.noConfusion h
      | ok frs' =>
        rw [hr] at h
        injection h with h'
        simp [← h', ih frs' hr]

/-- C5 (amended): a missing or null sample value in a VECTOR entry is kept in
the output with a `None` value field (not dropped and not NaN); a null sample
value in a MATRIX sample is not dropped either — there `float(None)` raises
`TypeError`, so the parse fails; no entry of a successfully formatted vector
result list is dropped; and every success payload with zero series — whether
its `resultType` is `"vector"` or `"matrix"` — parses to an empty results list
rather than an error. -/
theorem null_values_kept_and_zero_series_ok
    (m ts result data status result_m data_m status_m : PyVal)
    (rs frs : List PyVal)
    (hlen : PrometheusBackend.formatVectorList rs = .ok frs)
    (h1 : pyGet result "status" PyVal.none = .ok status)
    (hs : pyEqStr status "success" = true)
    (h2 : pyGet result "data" (.dict []) = .ok data)
    (h3 : pyGet data "resultType" PyVal.none = .ok (.str "vector"))
    (h6 : pyGet data "result" (.list []) = .ok (.list []))
    (h1m : pyGet result_m "status" PyVal.none = .ok status_m)
    (hsm : pyEqStr status_m "success" = true)
    (h2m : pyGet result_m "data" (.dict []) = .ok data_m)
    (h3m : pyGet data_m "resultType" PyVal.none = .ok (.str "matrix"))
    (h6m : pyGet data_m "result" (.list []) = .ok (.list [])) :
    PrometheusBackend.formatVectorEntry (.dict [("metric", m), ("value", .list [ts, .none])])
      = .ok (.dict [("metric", m), ("timestamp", ts), ("value", .none)]) ∧
    PrometheusBackend.formatVectorEntry (.dict [("metric", m)])
      = .ok (.dict [("metric", m), ("timestamp", .none), ("value", .none)]) ∧
    PrometheusBackend.formatMatrixValue (.list [ts, .none])
      = .error (.typeError "float() argument must be a string or a real number, not NoneType") ∧
    frs.length = rs.length ∧
    PrometheusBackend.format_result result
      = .ok (.dict [("type", .str "vector"), ("results", .list [])]) ∧
    PrometheusBackend.format_result result_m
      = .ok (.dict [("type", .str "matrix"), ("results", .list [])]) := by
  refine ⟨rfl, rfl, rfl, formatVectorList_length rs frs hlen, ?_, ?_⟩
  · unfold PrometheusBackend.format_result
    simp only [h1, hs, not_true_eq_false, if_false]
    simp only [h2, h3]
    simp [pyEqStr, h6, PrometheusBackend.format_vector_result, pyIter,
          PrometheusBackend.formatVectorList]
  · unfold PrometheusBackend.format_result
    simp only [h1m, hsm, not_true_eq_false, if_false]
    simp only [h2m, h3m]
    simp [pyEqStr, h6m, PrometheusBackend.format_matrix_result, pyIter,
          PrometheusBackend.formatMatrixList]

/-- C5 (witness for the amended theorem), at a concrete null-valued vector
sample, a concrete null-valued matrix sample, and the concrete zero-series
payloads with `resultType` `"vector"` and `"matrix"`. -/
theorem null_values_kept_and_zero_series_ok_witness :
    PrometheusBackend.formatVectorEntry
        (.dict [("metric", .dict [("job", .str "api")]),
                ("value", .list [.int 1700000000, .none])])
      = .ok (.dict [("metric", .dict [("job", .str "api")]),
                    ("timestamp", .int 1700000000), ("value", .none)]) ∧
    PrometheusBackend.formatVectorEntry (.dict [("metric", .dict [("job", .str "api")])])
      = .ok (.dict [("metric", .dict [("job", .str "api")]),
                    ("timestamp", .none), ("value", .none)]) ∧
    PrometheusBackend.formatMatrixValue (.list [.int 1700000000, .none])
      = .error (.typeError "float() argument must be a string or a real number, not NoneType") ∧
    ([] : List PyVal).length = ([] : List PyVal).length ∧
    PrometheusBackend.format_result
        (.dict [("status", .str "success"),
                ("data", .dict [("resultType", .str "vector"), ("result", .list [])])])
      = .ok (.dict [("type", .str "vector"), ("results", .list [])]) ∧
    PrometheusBackend.format_result
        (.dict [("status", .str "success"),
                ("data", .dict [("resultType", .str "matrix"), ("result", .list [])])])
      = .ok (.dict [("type", .str "matrix"), ("results", .list [])]) :=
  null_values_kept_and_zero_series_ok (.dict [("job", .str "api")]) (.int 1700000000)
    (.dict [("status", .str "success"),
            ("data", .dict [("resultType", .str "vector"), ("result", .list [])])])
    (.dict [("resultType", .str "vector"), ("result", .list [])])
    (.str "success")
    (.dict [("status", .str "success"),
            ("data", .dict [("resultType", .str "matrix"), ("result", .list [])])])
    (.dict [("resultType", .str "matrix"), ("result", .list [])])
    (.str "success") [] [] rfl rfl rfl rfl rfl rfl rfl rfl rfl rfl rfl

/-- C3 (counterexample): a combined backend constructed without a Loki URL
returns `None` from `get_logs_backend` (that part of the claim holds), but a
caller invoking the `query_logs` tool then receives
`ValueError("Logs backend not available")` — not a `ConfigurationError`. -/
theorem logs_missing_raises_value_error :
    PrometheusLokiBackend.init (some "http://prometheus:9090")
        Option.none Option.none Option.none
      = .ok ⟨⟨"http://prometheus:9090"⟩, Option.none⟩ ∧
    query_logs (.prometheusLoki ⟨⟨"http://prometheus:9090"⟩, Option.none⟩)
        Option.none ⟨200, "", .dict []⟩
      = .error (.valueError "Logs backend not available") ∧
    isConfigurationError (.valueError "Logs backend not available") = false :=
  ⟨rfl, rfl, rfl⟩

/-- C3 (amended): an observability backend constructed without a logs URL
returns `None` from `get_logs_backend` (a normal, non-error condition), and a
caller that then invokes the `query_logs` tool receives the typed raise
`ValueError("Logs backend not available")` — a guarded error, not a crash in
the backend dispatch, but not the spec's `ConfigurationError`. The
metrics-only `PrometheusObservabilityBackend` behaves the same with its
constant-`None` logs backend. -/
theorem logs_absent_contract (prometheus_url loki_url sp sl : Option String)
    (b : PrometheusLokiBackend.State)
    (hl : pyTruthyOptStr loki_url = false)
    (hinit : PrometheusLokiBackend.init prometheus_url loki_url sp sl = .ok b) :
    PrometheusLokiBackend.get_logs_backend b = Option.none ∧
    (∀ tr resp, query_logs (.prometheusLoki b) tr resp
      = .error (.valueError "Logs backend not available")) ∧
    (∀ pb tr resp, query_logs (.prometheus pb) tr resp
      = .error (.valueError "Logs backend not available")) := by
  unfold PrometheusLokiBackend.init at hinit
  cases hmb : PrometheusBackend.init prometheus_url sp with
  | error e => rw [hmb] at hinit; exact Except.noConfusion hinit
  | ok mb =>
    rw [hmb, hl] at hinit
    simp only [Bool.false_eq_true, if_false] at hinit
    injection hinit with hb
    subst hb
    exact ⟨rfl, fun tr resp => rfl, fun pb tr resp => rfl⟩

/-- C3 (witness for the amended theorem). -/
theorem logs_absent_contract_witness :
    pyTruthyOptStr Option.none = false ∧
    PrometheusLokiBackend.get_logs_backend ⟨⟨"http://prometheus:9090"⟩, Option.none⟩
      = Option.none ∧
    query_logs (.prometheusLoki ⟨⟨"http://prometheus:9090"⟩, Option.none⟩)
        (some "1h") ⟨200, "", .dict []⟩
      = .error (.valueError "Logs backend not available") :=
  ⟨rfl,
   (logs_absent_contract (some "http://prometheus:9090") Option.none Option.none Option.none
      ⟨⟨"http://prometheus:9090"⟩, Option.none⟩ rfl rfl).1,
   (logs_absent_contract (some "http://prometheus:9090") Option.none Option.none Option.none
      ⟨⟨"http://prometheus:9090"⟩, Option.none⟩ rfl rfl).2.1 (some "1h") ⟨200, "", .dict []⟩⟩

/-- C8 (counterexample): an unknown backend-kind string (here the spec's own
example `"metrics-only"`) makes the factory raise
`ValueError("Unsupported backend type: metrics-only")` — not a
`ConfigurationError`, and the message does not list the valid kinds. -/
theorem unknown_backend_kind_raises_value_error :
    ObservabilityBackendFactory.create_backend "metrics-only" Option.none Option.none
        (some "http://prometheus:9090") (some "http://loki:3100")
      = .error (.valueError "Unsupported backend type: metrics-only") ∧
    isConfigurationError (.valueError "Unsupported backend type: metrics-only") = false :=
  ⟨rfl, rfl⟩

/-- C8 (amended): the factory raises
`ValueError(f"Unsupported backend type: {backend_type}")` (naming the rejected
kind, not a `ConfigurationError` listing valid kinds) for every kind other
than `"prometheus"` and `"prometheus-loki"`; for those two kinds (given
resolved non-empty URLs) it returns the constructed backend — construction is
a pure function of the configuration and performs no network interaction. -/
theorem create_backend_registry (bt : String) (cp cl : Option (Option String))
    (sp sl : Option String) (u v : String)
    (h1 : bt ≠ "prometheus") (h2 : bt ≠ "prometheus-loki")
    (hu : cp.getD sp = some u) (hu' : u ≠ "")
    (hv : cl.getD sl = some v) (hv' : v ≠ "") :
    ObservabilityBackendFactory.create_backend bt cp cl sp sl
      = .error (.valueError ("Unsupported backend type: " ++ bt)) ∧
    ObservabilityBackendFactory.create_backend "prometheus" cp cl sp sl
      = .ok (.prometheus ⟨⟨u⟩⟩) ∧
    ObservabilityBackendFactory.create_backend "prometheus-loki" cp cl sp sl
      = .ok (.prometheusLoki ⟨⟨u⟩, some ⟨v⟩⟩) := by
  refine ⟨?_, ?_, ?_⟩
  · simp [ObservabilityBackendFactory.create_backend, h1, h2]
  · simp only [ObservabilityBackendFactory.create_backend, if_true, hu]
    simp [PrometheusObservabilityBackend.init, PrometheusBackend.init,
          pyOrOptStr, pyTruthyOptStr, hu']
  · simp only [ObservabilityBackendFactory.create_backend, hu, hv]
    simp [PrometheusLokiBackend.init, PrometheusBackend.init, LokiBackend.init,
          pyOrOptStr, pyTruthyOptStr, hu', hv']

/-- C8 (witness for the amended theorem). -/
theorem create_backend_registry_witness :
    ObservabilityBackendFactory.create_backend "metrics-and-logs" Option.none Option.none
        (some "http://prometheus:9090") (some "http://loki:3100")
      = .error (.valueError ("Unsupported backend type: " ++ "metrics-and-logs")) ∧
    ObservabilityBackendFactory.create_backend "prometheus" Option.none Option.none
        (some "http://prometheus:9090") (some "http://loki:3100")
      = .ok (.prometheus ⟨⟨"http://prometheus:9090"⟩⟩) ∧
    ObservabilityBackendFactory.create_backend "prometheus-loki" Option.none Option.none
        (some "http://prometheus:9090") (some "http://loki:3100")
      = .ok (.prometheusLoki ⟨⟨"http://prometheus:9090"⟩, some ⟨"http://loki:3100"⟩⟩) :=
  create_backend_registry "metrics-and-logs" Option.none Option.none
    (some "http://prometheus:9090") (some "http://loki:3100")
    "http://prometheus:9090" "http://loki:3100"
    (by decide) (by decide) rfl (by decide) rfl (by decide)

/-- C2: with `max_retries = 3` and an operation that raises a retryable error
on every call, the wrapper invokes the operation exactly 4 times (initial
attempt plus 3 retries) and raises `RetryError` whose `attempts` field is 4,
wrapping the message of the last underlying error and carrying the operation
name. -/
theorem retry_exhausts_after_four_calls {α : Type}
    (func : ℕ → Except PyExc α) (errs : ℕ → PyExc) (retryable : PyExc → Bool)
    (jitter : ℕ → ℚ) (initial_delay max_delay backoff_factor : ℚ) (funcName : String)
    (hf : ∀ k, func k = .error (errs k)) (hr : ∀ k, retryable (errs k) = true) :
    (retryWrapper func retryable jitter 3 initial_delay max_delay backoff_factor funcName).calls
      = 4 ∧
    (retryWrapper func retryable jitter 3 initial_delay max_delay backoff_factor funcName).outcome
      = .raised (.retryError "Operation failed after 3 retries" funcName 4
          (PyExc.toMessage (errs 3))) := by
  have hrange : pyRange (3 + 1 : ℤ) = [0, 1, 2, 3] := by decide
  have hmsg : ("Operation failed after " ++ toString (3 : ℤ) ++ " retries")
      = "Operation failed after 3 retries" := by decide
  unfold retryWrapper
  rw [hrange]
  simp only [retryLoop, hf, hr, hmsg]
  norm_num

/-- C2 (witness): the exhaustion theorem at a concrete always-failing
operation. -/
theorem retry_exhausts_after_four_calls_witness :
    (retryWrapper (fun _ => (.error (.prometheusConnectionError "connection refused")
          : Except PyExc ℕ))
        isPrometheusConnectionError (fun _ => 1) 3 1 60 2 "query").calls = 4 ∧
    (retryWrapper (fun _ => (.error (.prometheusConnectionError "connection refused")
          : Except PyExc ℕ))
        isPrometheusConnectionError (fun _ => 1) 3 1 60 2 "query").outcome
      = .raised (.retryError "Operation failed after 3 retries" "query" 4
          "connection refused") :=
  retry_exhausts_after_four_calls
    (fun _ => .error (.prometheusConnectionError "connection refused"))
    (fun _ => .prometheusConnectionError "connection refused")
    isPrometheusConnectionError (fun _ => 1) 1 60 2 "query"
    (fun _ => rfl) (fun _ => rfl)

/-- C7: an operation whose first call raises an error that does not match the
decorator's `exceptions` parameter is invoked exactly once; the error
propagates unchanged (not wrapped in `RetryError`) and no backoff sleep is
performed. -/
theorem non_retryable_error_propagates {α : Type}
    (func : ℕ → Except PyExc α) (retryable : PyExc → Bool) (jitter : ℕ → ℚ)
    (max_retries : ℤ) (initial_delay max_delay backoff_factor : ℚ)
    (funcName : String) (e : PyExc)
    (hm : 0 ≤ max_retries) (h0 : func 0 = .error e) (hnr : retryable e = false) :
    retryWrapper func retryable jitter max_retries initial_delay max_delay backoff_factor
        funcName
      = ⟨.raised e, [], 1⟩ := by
  cases hl : pyRange (max_retries + 1) with
  | nil =>
    have hlen := congrArg List.length hl
    simp only [pyRange, List.length_map, List.length_range, List.length_nil] at hlen
    omega
  | cons a rest =>
    unfold retryWrapper
    rw [hl]
    simp [retryLoop, h0, hnr]

/-- C7 (witness): a non-retryable `PrometheusQueryError` on the first call
propagates unchanged after exactly one invocation and no sleep. -/
theorem non_retryable_error_propagates_witness :
    (0 : ℤ) ≤ 3 ∧
    retryWrapper (fun _ => (.error (.prometheusQueryError "query rejected" "invalid_function(metric")
          : Except PyExc ℕ))
        isPrometheusConnectionError (fun _ => 1) 3 1 60 2 "query"
      = ⟨.raised (.prometheusQueryError "query rejected" "invalid_function(metric"), [], 1⟩ :=
  ⟨by decide,
   non_retryable_error_propagates
     (fun _ => .error (.prometheusQueryError "query rejected" "invalid_function(metric"))
     isPrometheusConnectionError (fun _ => 1) 3 1 60 2 "query"
     (.prometheusQueryError "query rejected" "invalid_function(metric") (by decide) rfl rfl⟩

/-- The retry loop exits via `return` or `raise` on every run whose attempt
list ends in `max_retries`: the attempt equal to `max_retries` always raises
(either the non-matching exception, or `RetryError`), so the loop never falls
through. -/
theorem retryLoop_no_fallthrough {α : Type} (func : ℕ → Except PyExc α)
    (retryable : PyExc → Bool) (jitter : ℕ → ℚ) (max_retries : ℤ)
    (max_delay backoff_factor : ℚ) (funcName : String) :
    ∀ (l : List ℤ) (d : ℚ) (calls : ℕ),
      l.getLast? = some max_retries →
      (retryLoop func retryable jitter max_retries max_delay backoff_factor funcName
          l d calls).outcome ≠ Option.none := by
  intro l
  induction l with
  | nil => intro d calls hlast; exact absurd hlast (by simp)
  | cons a rest ih =>
    intro d calls hlast
    cases rest with
    | nil =>
      simp only [List.getLast?_singleton, Option.some.injEq] at hlast
      subst hlast
      simp only [retryLoop]
      cases func calls with
      | ok v => simp
      | error e =>
        cases hre : retryable e with
        | false => simp [hre]
        | true => simp [hre]
    | cons b t =>
      rw [List.getLast?_cons_cons] at hlast
      simp only [retryLoop]
      cases func calls with
      | ok v => simp
      | error e =>
        cases hre : retryable e with
        | false => simp [hre]
        | true =>
          cases ham : decide (a = max_retries) with
          | true => simp [hre, of_decide_eq_true ham]
          | false =>
            simp only [hre, if_true, of_decide_eq_false ham, if_false]
            exact ih _ _ hlast

/-- Python `range(max_retries + 1)` ends in `max_retries` when
`max_retries ≥ 0`. -/
theorem pyRange_getLast (max_retries : ℤ) (hm : 0 ≤ max_retries) :
    (pyRange (max_retries + 1)).getLast? = some max_retries := by
  have h1 : (max_retries + 1).toNat = max_retries.toNat + 1 := by omega
  rw [pyRange, h1, List.range_succ, List.map_append]
  simp [Int.toNat_of_nonneg hm]

/-- C10: for every `max_retries ≥ 0` and every behaviour of the wrapped
operation, the retry loop exits by returning the operation's result or by
raising (the non-matching exception, or `RetryError`): its exit is never the
fall-through `Option.none`, so the trailing
`raise RuntimeError("Unexpected end of retry loop")` in `retryWrapper` is
unreachable and the wrapper's outcome is exactly the loop's. -/
theorem retry_loop_never_falls_through {α : Type} (func : ℕ → Except PyExc α)
    (retryable : PyExc → Bool) (jitter : ℕ → ℚ) (max_retries : ℤ)
    (initial_delay max_delay backoff_factor : ℚ) (funcName : String)
    (hm : 0 ≤ max_retries) :
    (retryLoop func retryable jitter max_retries max_delay backoff_factor funcName
        (pyRange (max_retries + 1)) initial_delay 0).outcome ≠ Option.none ∧
    (∀ o, (retryLoop func retryable jitter max_retries max_delay backoff_factor funcName
        (pyRange (max_retries + 1)) initial_delay 0).outcome = some o →
      (retryWrapper func retryable jitter max_retries initial_delay max_delay backoff_factor
          funcName).outcome = o) := by
  refine ⟨retryLoop_no_fallthrough func retryable jitter max_retries max_delay backoff_factor
    funcName _ initial_delay 0 (pyRange_getLast max_retries hm), ?_⟩
  intro o h
  unfold retryWrapper
  dsimp only
  rw [h]

/-- C10 (witness): the loop exit at a concrete always-failing operation with
the default policy shape. -/
theorem retry_loop_never_falls_through_witness :
    (0 : ℤ) ≤ 3 ∧
    (retryLoop (fun _ => (.error (.prometheusConnectionError "down") : Except PyExc ℕ))
        isPrometheusConnectionError (fun _ => 1) 3 60 2 "query"
        (pyRange (3 + 1)) 1 0).outcome ≠ Option.none :=
  ⟨by decide,
   (retry_loop_never_falls_through
      (fun _ => (.error (.prometheusConnectionError "down") : Except PyExc ℕ))
      isPrometheusConnectionError (fun _ => 1) 3 1 60 2 "query" (by decide)).1⟩

/-- The sleep schedule the spec describes for the retry executor (§4.3),
written from the spec's words for comparison with `retryLoop`: starting from
working delay `d` with jitter draws indexed from `base`, each sleep is
`min(previous-working-delay * backoffFactor * jitter, maxDelay)` and the
working delay becomes exactly the just-used value (never reset). -/
def specSleepSeq (max_delay backoff_factor : ℚ) (jitter : ℕ → ℚ) (d : ℚ) (base : ℕ) :
    ℕ → ℚ
  | 0 => min (d * backoff_factor * jitter base) max_delay
  | k + 1 =>
    min (specSleepSeq max_delay backoff_factor jitter d base k * backoff_factor
        * jitter (base + (k + 1))) max_delay

/-- Advancing the start of the schedule by one step: the tail of the schedule
from `d` is the schedule from the first sleep value. -/
theorem specSleepSeq_shift (max_delay backoff_factor : ℚ) (jitter : ℕ → ℚ)
    (d : ℚ) (base : ℕ) :
    ∀ k, specSleepSeq max_delay backoff_factor jitter d base (k + 1)
      = specSleepSeq max_delay backoff_factor jitter
          (min (d * backoff_factor * jitter base) max_delay) (base + 1) k := by
  intro k
  induction k with
  | zero => rfl
  | succ k ih =>
    have l1 : specSleepSeq max_delay backoff_factor jitter d base (k + 1 + 1)
        = min (specSleepSeq max_delay backoff_factor jitter d base (k + 1) * backoff_factor
            * jitter (base + (k + 1 + 1))) max_delay := rfl
    have l2 : specSleepSeq max_delay backoff_factor jitter
          (min (d * backoff_factor * jitter base) max_delay) (base + 1) (k + 1)
        = min (specSleepSeq max_delay backoff_factor jitter
              (min (d * backoff_factor * jitter base) max_delay) (base + 1) k * backoff_factor
            * jitter (base + 1 + (k + 1))) max_delay := rfl
    have hidx : base + (k + 1 + 1) = base + 1 + (k + 1) := by omega
    rw [l1, l2, ih, hidx]

/-- Every sleep the retry loop performs follows the spec's schedule from the
delay the loop was entered with: sleep `k` (zero-based, counted from call
number `calls`) equals `specSleepSeq … d calls k`. -/
theorem retryLoop_sleeps_spec {α : Type} (func : ℕ → Except PyExc α)
    (retryable : PyExc → Bool) (jitter : ℕ → ℚ) (max_retries : ℤ)
    (max_delay backoff_factor : ℚ) (funcName : String) :
    ∀ (l : List ℤ) (d : ℚ) (calls k : ℕ),
      k < (retryLoop func retryable jitter max_retries max_delay backoff_factor funcName
          l d calls).sleeps.length →
      (retryLoop func retryable jitter max_retries max_delay backoff_factor funcName
          l d calls).sleeps.getD k 0
        = specSleepSeq max_delay backoff_factor jitter d calls k := by
  intro l
  induction l with
  | nil => intro d calls k h; simp [retryLoop] at h
  | cons a rest ih =>
    intro d calls k h
    simp only [retryLoop] at h ⊢
    cases hfc : func calls with
    | ok v => rw [hfc] at h; simp at h
    | error e =>
      rw [hfc] at h
      dsimp only at h ⊢
      cases hre : retryable e with
      | false => rw [hre] at h; simp at h
      | true =>
        rw [hre] at h
        by_cases ham : a = max_retries
        · simp [ham] at h
        · simp only [if_neg ham, eq_self_iff_true, if_true] at h ⊢
          cases k with
          | zero => simp [specSleepSeq]
          | succ k =>
            rw [List.getD_cons_succ, specSleepSeq_shift]
            exact ih _ (calls + 1) k (by simpa using h)

/-- C6: for every policy and run, each sleep the wrapper performs is
`min(previous-delay * backoff_factor * jitter, max_delay)` where the previous
delay for the first sleep is `initial_delay` and for every later sleep is
exactly the just-used (post-min, post-jitter) sleep value — the working delay
is never reset to the initial delay. The jitter oracle models
`random.uniform(0.8, 1.2)`, whose draws lie in `[0.8, 1.2]`. -/
theorem retry_backoff_delay_recurrence {α : Type} (func : ℕ → Except PyExc α)
    (retryable : PyExc → Bool) (jitter : ℕ → ℚ) (max_retries : ℤ)
    (initial_delay max_delay backoff_factor : ℚ) (funcName : String)
    (hj : ∀ k, (4 : ℚ) / 5 ≤ jitter k ∧ jitter k ≤ 6 / 5) :
    (0 < (retryWrapper func retryable jitter max_retries initial_delay max_delay
        backoff_factor funcName).sleeps.length →
      (retryWrapper func retryable jitter max_retries initial_delay max_delay
          backoff_factor funcName).sleeps.getD 0 0
        = min (initial_delay * backoff_factor * jitter 0) max_delay) ∧
    (∀ k, k + 1 < (retryWrapper func retryable jitter max_retries initial_delay max_delay
        backoff_factor funcName).sleeps.length →
      (retryWrapper func retryable jitter max_retries initial_delay max_delay
          backoff_factor funcName).sleeps.getD (k + 1) 0
        = min ((retryWrapper func retryable jitter max_retries initial_delay max_delay
              backoff_factor funcName).sleeps.getD k 0 * backoff_factor * jitter (k + 1))
            max_delay) := by
  have hw : (retryWrapper func retryable jitter max_retries initial_delay max_delay
        backoff_factor funcName).sleeps
      = (retryLoop func retryable jitter max_retries max_delay backoff_factor funcName
          (pyRange (max_retries + 1)) initial_delay 0).sleeps := rfl
  constructor
  · intro h
    rw [hw] at h ⊢
    rw [retryLoop_sleeps_spec func retryable jitter max_retries max_delay backoff_factor
      funcName _ initial_delay 0 0 h]
    rfl
  · intro k h
    have hk : k < (retryWrapper func retryable jitter max_retries initial_delay max_delay
        backoff_factor funcName).sleeps.length := Nat.lt_of_succ_lt h
    rw [hw] at h hk ⊢
    rw [retryLoop_sleeps_spec func retryable jitter max_retries max_delay backoff_factor
      funcName _ initial_delay 0 (k + 1) h]
    rw [retryLoop_sleeps_spec func retryable jitter max_retries max_delay backoff_factor
      funcName _ initial_delay 0 k hk]
    have hstep : specSleepSeq max_delay backoff_factor jitter initial_delay 0 (k + 1)
        = min (specSleepSeq max_delay backoff_factor jitter initial_delay 0 k
            * backoff_factor * jitter (0 + (k + 1))) max_delay := rfl
    rw [hstep, Nat.zero_add]

/-- C6 (witness): at a concrete run (three retries, jitter constantly 1) the
second sleep is the just-used first sleep times the backoff factor and jitter,
capped at the maximum delay. -/
theorem retry_backoff_delay_recurrence_witness :
    (retryWrapper (fun _ => (.error (.prometheusConnectionError "down") : Except PyExc ℕ))
        isPrometheusConnectionError (fun _ => 1) 3 1 60 2 "query").sleeps.getD 1 0
      = min ((retryWrapper (fun _ => (.error (.prometheusConnectionError "down")
              : Except PyExc ℕ))
            isPrometheusConnectionError (fun _ => 1) 3 1 60 2 "query").sleeps.getD 0 0
          * 2 * 1) 60 :=
  (retry_backoff_delay_recurrence
      (fun _ => (.error (.prometheusConnectionError "down") : Except PyExc ℕ))
      isPrometheusConnectionError (fun _ => 1) 3 1 60 2 "query"
      (fun _ => by norm_num)).2 0 (by decide)
